import Mathlib

/-!
Verification development for the debate-coach application (`src/app.py`).

The file shallowly embeds the parsing / validation layer of the program:

* a JSON value type and an executable JSON parser modelling Python's
  `json.loads` and pydantic's `model_validate_json` JSON front end
  (integer numerals only; the claims under study involve no floats),
* the pydantic models `Evidence`, `Argument`, `DebateArguments`,
  `SimpleArgList`, `Rebuttal`, `Rebuttals` and their validation semantics
  (pydantic v2: a field annotated `Optional[T]` with no default is
  required but may be `null`; extra keys are ignored),
* the utility `extract_json` and the response-processing logic of
  `generate_arguments`, `generate_opponents`, `generate_rebuttals` and
  `score_rebuttal`.

The upstream chat-completion API is modelled as an oracle
`Nat → String` giving the text of the n-th call's response; each
`*_run` function returns its result together with the number of
upstream calls it makes.
-/

namespace DebateCoach

/-- Whitespace accepted by the JSON grammar (and by serde/jiter):
space, tab, line feed, carriage return. -/
def isJsonWs (c : Char) : Bool :=
  c = ' ' || c = '\t' || c = '\n' || c = '\r'

/-- Whitespace stripped by Python's `str.strip()`:
the JSON whitespace plus vertical tab and form feed. -/
def isPyWs (c : Char) : Bool :=
  isJsonWs c || c = Char.ofNat 11 || c = Char.ofNat 12

/-- Model of Python's `str.strip()`. -/
def pyStrip (s : String) : String :=
  String.mk (((s.data.dropWhile isPyWs).reverse.dropWhile isPyWs).reverse)

def skipWs (cs : List Char) : List Char := cs.dropWhile isJsonWs

/-- The opening brace character. -/
def braceOpen : Char := Char.ofNat 123

/-- The closing brace character. -/
def braceClose : Char := Char.ofNat 125

def isOpenBrace (c : Char) : Bool := c = braceOpen
def isCloseBrace (c : Char) : Bool := c = braceClose

/-- JSON values.  Numbers are modelled as integers: every numeric
literal occurring in the program's schemas and in the claims is an
integer, and a float literal simply fails to parse in this model. -/
inductive Json where
  | null : Json
  | jbool : Bool → Json
  | jnum : Int → Json
  | jstr : String → Json
  | jarr : List Json → Json
  | jobj : List (String × Json) → Json

/-- Decoding of a JSON string escape sequence (after the backslash).
`\uXXXX` escapes are not modelled; none occur in the claims. -/
def unescape (c : Char) : Option Char :=
  if c = '\"' then some '\"'
  else if c = '\\' then some '\\'
  else if c = '/' then some '/'
  else if c = 'n' then some '\n'
  else if c = 't' then some '\t'
  else if c = 'r' then some '\r'
  else if c = 'b' then some (Char.ofNat 8)
  else if c = 'f' then some (Char.ofNat 12)
  else none

/-- Parse the remainder of a JSON string literal (the opening quote
already consumed), accumulating characters in reverse. -/
def parseStr : List Char → List Char → Option (String × List Char)
  | [], _ => none
  | c :: cs, acc =>
    if c = '\"' then some (String.mk acc.reverse, cs)
    else if c = '\\' then
      match cs with
      | [] => none
      | e :: cs2 =>
        match unescape e with
        | some u => parseStr cs2 (u :: acc)
        | none => none
    else parseStr cs (c :: acc)

/-- Consume a maximal run of decimal digits, accumulating their value. -/
def digitsLoop : List Char → Nat → Nat × List Char
  | [], acc => (acc, [])
  | c :: cs, acc =>
    if c.isDigit then digitsLoop cs (acc * 10 + (c.toNat - 48))
    else (acc, c :: cs)

/-- Parse a nonempty run of decimal digits. -/
def parseDigits (cs : List Char) : Option (Nat × List Char) :=
  match cs with
  | [] => none
  | c :: _ => if c.isDigit then some (digitsLoop cs 0) else none

mutual

/-- Parse one JSON value.  `fuel` bounds the recursion depth; the
top-level entry point supplies more fuel than any input could use. -/
def parseValue : Nat → List Char → Option (Json × List Char)
  | 0, _ => none
  | Nat.succ f, cs =>
    match skipWs cs with
    | [] => none
    | c :: rest =>
      if c = braceOpen then
        match skipWs rest with
        | [] => none
        | c2 :: rest2 =>
          if c2 = braceClose then some (Json.jobj [], rest2)
          else parseMembers f (c2 :: rest2) []
      else if c = '[' then
        match skipWs rest with
        | [] => none
        | c2 :: rest2 =>
          if c2 = ']' then some (Json.jarr [], rest2)
          else parseElems f (c2 :: rest2) []
      else if c = '\"' then
        match parseStr rest [] with
        | some (s, r) => some (Json.jstr s, r)
        | none => none
      else if c = '-' then
        match parseDigits rest with
        | some (n, r) => some (Json.jnum (-(n : Int)), r)
        | none => none
      else if c.isDigit then
        match parseDigits (c :: rest) with
        | some (n, r) => some (Json.jnum (n : Int), r)
        | none => none
      else
        match c :: rest with
        | 't' :: 'r' :: 'u' :: 'e' :: r => some (Json.jbool true, r)
        | 'f' :: 'a' :: 'l' :: 's' :: 'e' :: r => some (Json.jbool false, r)
        | 'n' :: 'u' :: 'l' :: 'l' :: r => some (Json.null, r)
        | _ => none

/-- Parse the members of a JSON object, positioned at the start of a
key (the opening brace consumed, the object known to be nonempty). -/
def parseMembers : Nat → List Char → List (String × Json) → Option (Json × List Char)
  | 0, _, _ => none
  | Nat.succ f, cs, acc =>
    match skipWs cs with
    | [] => none
    | c :: rest =>
      if c = '\"' then
        match parseStr rest [] with
        | none => none
        | some (k, r1) =>
          match skipWs r1 with
          | [] => none
          | c2 :: r2 =>
            if c2 = ':' then
              match parseValue f r2 with
              | none => none
              | some (v, r3) =>
                match skipWs r3 with
                | [] => none
                | c3 :: r4 =>
                  if c3 = ',' then parseMembers f r4 (acc ++ [(k, v)])
                  else if c3 = braceClose then some (Json.jobj (acc ++ [(k, v)]), r4)
                  else none
            else none
      else none

/-- Parse the elements of a JSON array, positioned at the start of an
element (the opening bracket consumed, the array known to be nonempty). -/
def parseElems : Nat → List Char → List Json → Option (Json × List Char)
  | 0, _, _ => none
  | Nat.succ f, cs, acc =>
    match parseValue f cs with
    | none => none
    | some (v, r1) =>
      match skipWs r1 with
      | [] => none
      | c :: r2 =>
        if c = ',' then parseElems f r2 (acc ++ [v])
        else if c = ']' then some (Json.jarr (acc ++ [v]), r2)
        else none

end

/-- Model of a strict JSON document parse (`json.loads`, and the JSON
front end of pydantic's `model_validate_json`): one value, surrounding
whitespace tolerated, nothing else before or after. -/
def jsonParse (s : String) : Option Json :=
  match parseValue (2 * s.length + 2) s.data with
  | some (v, rest) => if skipWs rest = [] then some v else none
  | none => none

/-- Index of the first character satisfying `p`. -/
def firstIdx (p : Char → Bool) : List Char → Option Nat
  | [] => none
  | c :: cs => if p c then some 0 else (firstIdx p cs).map (· + 1)

/-- Index of the last character satisfying `p`. -/
def lastIdx (p : Char → Bool) : List Char → Option Nat
  | [] => none
  | c :: cs =>
    match lastIdx p cs with
    | some k => some (k + 1)
    | none => if p c then some 0 else none

/-- Model of `re.search` with the pattern containing the recursive
extension `(?R)`.  Python's `re` module does not support `(?R)` and
raises `re.error` when compiling the pattern, so this call always
raises; the surrounding `try` in `extract_json` catches it. -/
def reSearchRecursive (_raw : String) : Except String (Option String) :=
  Except.error "re.error: unknown extension ?R"

/-- Model of `re.search` with pattern `\x7b.*\x7d` under `re.DOTALL`
(greedy).  The leftmost match starts at the first opening brace; the
greedy `.*` extends the match to the last closing brace of the whole
input, provided it lies after that opening brace; otherwise no brace
after the first opening brace exists and there is no match. -/
def reSearchBraceGreedy (s : String) : Option String :=
  match firstIdx isOpenBrace s.data, lastIdx isCloseBrace s.data with
  | some i, some j =>
    if i < j then some (String.mk ((s.data.drop i).take (j - i + 1))) else none
  | _, _ => none

/-- `extract_json` from `src/app.py`: the first branch always raises
(see `reSearchRecursive`) and is caught; the second branch is the
greedy brace search; if it finds nothing the function returns `None`. -/
def extract_json (raw_text : String) : Option String :=
  match reSearchRecursive raw_text with
  | Except.ok (some m) => some m
  | _ =>
    match reSearchBraceGreedy raw_text with
    | some m => some m
    | none => none

/-- Pydantic model `Evidence`. -/
structure Evidence where
  evidence_description : String
  source_or_instance : String
deriving DecidableEq, Repr

/-- Pydantic model `Argument`.  The first five fields are
`Optional[...]` with no default (required, nullable); `famous_quote`
is `Optional[str]` with default `""`. -/
structure Argument where
  argument_title : Option String
  argument : Option String
  argument_description : Option String
  supporting_evidence : Option (List Evidence)
  evidence_hint : Option String
  famous_quote : Option String
deriving DecidableEq, Repr

/-- Pydantic model `DebateArguments`. -/
structure DebateArguments where
  arguments : List Argument
deriving DecidableEq, Repr

/-- Pydantic model `SimpleArgList`. -/
structure SimpleArgList where
  arguments : List Argument
deriving DecidableEq, Repr

/-- Pydantic model `Rebuttal`. -/
structure Rebuttal where
  original_argument_title : String
  counter_argument : String
  counter_evidence : Evidence
deriving DecidableEq, Repr

/-- Pydantic model `Rebuttals`. -/
structure Rebuttals where
  rebuttals : List Rebuttal
deriving DecidableEq, Repr

/-- Field lookup in a parsed JSON object (pydantic ignores extra keys). -/
def getField (fs : List (String × Json)) (k : String) : Option Json :=
  fs.lookup k

/-- Validation of a required `str` field value. -/
def asStr : Json → Option String
  | Json.jstr s => some s
  | _ => none

/-- Validation of an `Optional[str]` field value: `null` or a string.
Pydantic v2 does not coerce other primitives to `str`. -/
def asOptStr : Json → Option (Option String)
  | Json.null => some none
  | Json.jstr s => some (some s)
  | _ => none

/-- Validation of an `Evidence` value. -/
def validateEvidence (j : Json) : Option Evidence :=
  match j with
  | Json.jobj fs =>
    (getField fs "evidence_description").bind fun jd =>
    (getField fs "source_or_instance").bind fun js =>
    (asStr jd).bind fun d =>
    (asStr js).map fun s => Evidence.mk d s
  | _ => none

/-- Validation of a `List[Evidence]` value, element by element. -/
def validateEvidences : List Json → Option (List Evidence)
  | [] => some []
  | j :: js =>
    (validateEvidence j).bind fun e =>
    (validateEvidences js).map fun es => e :: es

/-- Validation of an `Optional[List[Evidence]]` field value. -/
def asOptEvidences : Json → Option (Option (List Evidence))
  | Json.null => some none
  | Json.jarr js => (validateEvidences js).map some
  | _ => none

/-- Validation of the `famous_quote` field: absent means the default
`""`; present it must be `null` or a string. -/
def famousQuoteField (o : Option Json) : Option (Option String) :=
  match o with
  | none => some (some "")
  | some j => asOptStr j

/-- Validation of an `Argument` value: the five defaultless fields must
be present (each possibly `null`); `famous_quote` may be absent. -/
def validateArgument (j : Json) : Option Argument :=
  match j with
  | Json.jobj fs =>
    (getField fs "argument_title").bind fun jt =>
    (getField fs "argument").bind fun ja =>
    (getField fs "argument_description").bind fun jd =>
    (getField fs "supporting_evidence").bind fun jse =>
    (getField fs "evidence_hint").bind fun jeh =>
    (asOptStr jt).bind fun t =>
    (asOptStr ja).bind fun a =>
    (asOptStr jd).bind fun d =>
    (asOptEvidences jse).bind fun se =>
    (asOptStr jeh).bind fun eh =>
    (famousQuoteField (getField fs "famous_quote")).map fun fq =>
    Argument.mk t a d se eh fq
  | _ => none

/-- Validation of a `List[Argument]` value, element by element. -/
def validateArgs : List Json → Option (List Argument)
  | [] => some []
  | j :: js =>
    (validateArgument j).bind fun a =>
    (validateArgs js).map fun as => a :: as

/-- Validation of a `DebateArguments` value. -/
def validateDebateArguments (j : Json) : Option DebateArguments :=
  match j with
  | Json.jobj fs =>
    (getField fs "arguments").bind fun ja =>
    match ja with
    | Json.jarr js => (validateArgs js).map DebateArguments.mk
    | _ => none
  | _ => none

/-- Validation of a `SimpleArgList` value. -/
def validateSimpleArgList (j : Json) : Option SimpleArgList :=
  match j with
  | Json.jobj fs =>
    (getField fs "arguments").bind fun ja =>
    match ja with
    | Json.jarr js => (validateArgs js).map SimpleArgList.mk
    | _ => none
  | _ => none

/-- Validation of a `Rebuttal` value. -/
def validateRebuttal (j : Json) : Option Rebuttal :=
  match j with
  | Json.jobj fs =>
    (getField fs "original_argument_title").bind fun jt =>
    (getField fs "counter_argument").bind fun jc =>
    (getField fs "counter_evidence").bind fun je =>
    (asStr jt).bind fun t =>
    (asStr jc).bind fun c =>
    (validateEvidence je).map fun e => Rebuttal.mk t c e
  | _ => none

/-- Validation of a `List[Rebuttal]` value, element by element. -/
def validateRebuttalList : List Json → Option (List Rebuttal)
  | [] => some []
  | j :: js =>
    (validateRebuttal j).bind fun r =>
    (validateRebuttalList js).map fun rs => r :: rs

/-- Validation of a `Rebuttals` value. -/
def validateRebuttals (j : Json) : Option Rebuttals :=
  match j with
  | Json.jobj fs =>
    (getField fs "rebuttals").bind fun jr =>
    match jr with
    | Json.jarr js => (validateRebuttalList js).map Rebuttals.mk
    | _ => none
  | _ => none

/-- `DebateArguments.model_validate_json`: strict JSON parse, then
model validation. -/
def DebateArguments.model_validate_json (s : String) : Option DebateArguments :=
  (jsonParse s).bind validateDebateArguments

/-- `SimpleArgList.model_validate_json`. -/
def SimpleArgList.model_validate_json (s : String) : Option SimpleArgList :=
  (jsonParse s).bind validateSimpleArgList

/-- `Rebuttals.model_validate_json`. -/
def Rebuttals.model_validate_json (s : String) : Option Rebuttals :=
  (jsonParse s).bind validateRebuttals

/-- The outcome of one generation operation as observed by the UI:
a validated value, a reported failure (`st.error`/`st.warning` plus
`st.text` of the shown offending text, then a `None`-like return), or
an exception escaping the function uncaught. -/
inductive GenResult (α : Type) where
  | ok : α → GenResult α
  | failMsg : String → GenResult α
  | raised : GenResult α
deriving DecidableEq, Repr

/-- Response handling of `generate_arguments` (`src/app.py` lines
88-98): try to validate the stripped response directly; on failure,
extract a JSON substring and validate that — this second validation
is not guarded by a `try`, so its failure escapes as an uncaught
exception; if no substring is found, report with the raw text and
return `None`. -/
def processArgumentsResponse (raw : String) : GenResult DebateArguments :=
  match DebateArguments.model_validate_json raw with
  | some v => GenResult.ok v
  | none =>
    match extract_json raw with
    | some s =>
      match DebateArguments.model_validate_json s with
      | some v => GenResult.ok v
      | none => GenResult.raised
    | none => GenResult.failMsg raw

/-- Response handling of `generate_opponents` (`src/app.py` lines
126-137): extract a JSON substring (reporting the raw text if none is
found), then validate it (reporting the extracted text on failure). -/
def processOpponentsResponse (raw : String) : GenResult SimpleArgList :=
  match extract_json raw with
  | none => GenResult.failMsg raw
  | some s =>
    match SimpleArgList.model_validate_json s with
    | some v => GenResult.ok v
    | none => GenResult.failMsg s

/-- Response handling of `score_rebuttal` (`src/app.py` lines
196-201): `json.loads` of the stripped response with no further
validation; on parse failure report with the response text and return
`None`. -/
def processScoreResponse (raw : String) : GenResult Json :=
  match jsonParse (pyStrip raw) with
  | some v => GenResult.ok v
  | none => GenResult.failMsg raw

/-- Per-argument response handling of `generate_rebuttals`
(`src/app.py` lines 171-177): the raw response is spliced into
`\x7b"rebuttals":[ … ]\x7d` and validated; `rebuttals[0]` of the result is
kept (an empty list raises `IndexError`, caught by the same `except`,
so the argument is skipped, as on any validation failure). -/
def processRebuttalResponse (raw : String) : Option Rebuttal :=
  match Rebuttals.model_validate_json ("\x7b\"rebuttals\":[" ++ raw ++ "]\x7d") with
  | some r => r.rebuttals.head?
  | none => none

/-- An upstream oracle built from a finite list of responses. -/
def oracleOf (rs : List String) : Nat → String :=
  fun n => rs.getD n ""

/-- `generate_arguments` (`src/app.py` lines 62-98), abstracted over
the upstream oracle: one completion request is issued, its stripped
text processed; the pair carries the number of upstream calls made. -/
def generate_arguments_run (oracle : Nat → String) : GenResult DebateArguments × Nat :=
  (processArgumentsResponse (pyStrip (oracle 0)), 1)

/-- `generate_opponents` (`src/app.py` lines 101-137), abstracted over
the upstream oracle. -/
def generate_opponents_run (oracle : Nat → String) : GenResult SimpleArgList × Nat :=
  (processOpponentsResponse (pyStrip (oracle 0)), 1)

/-- `score_rebuttal` (`src/app.py` lines 181-201), abstracted over the
upstream oracle. -/
def score_rebuttal_run (oracle : Nat → String) : GenResult Json × Nat :=
  (processScoreResponse (oracle 0), 1)

/-- `generate_rebuttals` (`src/app.py` lines 140-178): parse the
opponent JSON (returning `[]` with an error message if invalid), then
make one request per opponent argument, keeping the rebuttals that
validate and dropping (with a warning) those that do not. -/
def generate_rebuttals_run (opponent_json : String) (oracle : Nat → String) : List Rebuttal :=
  match SimpleArgList.model_validate_json opponent_json with
  | none => []
  | some parsed =>
    (List.range parsed.arguments.length).filterMap fun i =>
      processRebuttalResponse (pyStrip (oracle i))

/-- The user-visible failure messages of `generate_rebuttals`
(`src/app.py` lines 158-159 and 176), each represented by the
offending text the message includes: an invalid opponent JSON is
reported by `st.error` with the opponent JSON text appended; each
argument whose response fails to validate is reported by `st.warning`
with the raw (stripped) response appended. -/
def generate_rebuttals_messages (opponent_json : String) (oracle : Nat → String) : List String :=
  match SimpleArgList.model_validate_json opponent_json with
  | none => [opponent_json]
  | some parsed =>
    (List.range parsed.arguments.length).filterMap fun i =>
      match processRebuttalResponse (pyStrip (oracle i)) with
      | some _ => none
      | none => some (pyStrip (oracle i))

/-- Characters that cannot begin a JSON document: not an opening brace
or bracket (nor a closing bracket, which ends an array), not a quote,
minus sign or digit, and not the initial of `true`, `false`, `null`.
A text whose first non-whitespace character is such a character — the
typical start of prose commentary — cannot parse as JSON. -/
def notJsonStart (c : Char) : Bool :=
  !(c = braceOpen) && !(c = '[') && !(c = ']') && !(c = '\"') && !(c = '-')
    && !c.isDigit && !(c = 't') && !(c = 'f') && !(c = 'n')

/-- The startup check of the script (`src/app.py` lines 231-234):
if the secret store lacks the key `openai_api_key`, an error is shown
and `st.stop()` halts the script, so the continuation — the rest of
the app, including every generation operation — never runs. -/
def app_main {α : Type} (secrets : List String) (rest : Unit → α) : Except String α :=
  if "openai_api_key" ∈ secrets then Except.ok (rest ())
  else Except.error "OpenAI API key not found in Streamlit secrets. Please add it as openai_api_key."

/-- Helper for `specScoreWellFormed`: the field holds an integer in 1-10. -/
def scoreFieldInRange (o : Option Json) : Bool :=
  match o with
  | some (Json.jnum n) => 1 ≤ n && n ≤ 10
  | _ => false

/-- Modelled from the spec (section 8): a well-formed `Score` value
holds the four numeric categories `Logic`, `Evidence`, `Relevance`,
`Style`, each in the range 1-10, plus a `Suggestion` string.  Used to
compare `score_rebuttal`'s actual output against the spec's contract. -/
def specScoreWellFormed (j : Json) : Bool :=
  match j with
  | Json.jobj fs =>
    scoreFieldInRange (getField fs "Logic")
    && scoreFieldInRange (getField fs "Evidence")
    && scoreFieldInRange (getField fs "Relevance")
    && scoreFieldInRange (getField fs "Style")
    && (match getField fs "Suggestion" with
        | some (Json.jstr _) => true
        | _ => false)
  | _ => false

/-- The three-response scenario of spec section 8: a non-JSON response,
a response missing required fields, and a schema-conforming response. -/
def sectionEightResponses : List String :=
  ["not json",
   "\x7b\"argument\":\"x\"\x7d",
   "\x7b\"argument\":\"x\",\"evidence_hint\":\"y\",\"famous_quote\":\"z\"\x7d"]

/-! ## Helper lemmas -/

/-- The first branch of `extract_json` always raises and is caught, so
the function's value is that of the greedy brace search. -/
theorem extract_json_eq (s : String) : extract_json s = reSearchBraceGreedy s := by
  unfold extract_json
  cases h : reSearchBraceGreedy s <;> simp [reSearchRecursive, h]

theorem firstIdx_append_head (p : Char → Bool) (l1 : List Char) (c : Char) (l2 : List Char)
    (h1 : ∀ x ∈ l1, p x = false) (hc : p c = true) :
    firstIdx p (l1 ++ c :: l2) = some l1.length := by
  induction l1 with
  | nil => simp [firstIdx, hc]
  | cons a t ih =>
    have ha : p a = false := h1 a (by simp)
    have ht : ∀ x ∈ t, p x = false := fun x hx => h1 x (by simp [hx])
    simp [firstIdx, ha, ih ht]

theorem lastIdx_none (p : Char → Bool) (l : List Char) (h : ∀ x ∈ l, p x = false) :
    lastIdx p l = none := by
  induction l with
  | nil => rfl
  | cons a t ih =>
    have ha : p a = false := h a (by simp)
    have ht : ∀ x ∈ t, p x = false := fun x hx => h x (by simp [hx])
    simp [lastIdx, ih ht, ha]

theorem lastIdx_append_some (p : Char → Bool) (l1 l2 : List Char) (k : Nat)
    (h : lastIdx p l2 = some k) :
    lastIdx p (l1 ++ l2) = some (l1.length + k) := by
  induction l1 with
  | nil => simpa using h
  | cons a t ih =>
    simp only [List.cons_append, lastIdx, List.append_eq, ih, List.length_cons]
    congr 1
    omega

theorem validateArgs_length (js : List Json) (args : List Argument)
    (h : validateArgs js = some args) : args.length = js.length := by
  induction js generalizing args with
  | nil =>
    simp [validateArgs] at h
    simp [← h]
  | cons j t ih =>
    simp only [validateArgs] at h
    cases hv : validateArgument j with
    | none => rw [hv] at h; simp at h
    | some a =>
      rw [hv] at h
      cases hr : validateArgs t with
      | none => rw [hr] at h; simp at h
      | some as =>
        rw [hr] at h
        simp at h
        rw [← h]
        simp [ih as hr]

/-- When a response is an object embedded in prose whose prefix holds
no opening brace and whose suffix holds no closing brace, the greedy
extraction recovers exactly the embedded object. -/
theorem extract_json_wrap (pre mid post : String)
    (hpre : ∀ c ∈ pre.data, isOpenBrace c = false)
    (hpost : ∀ c ∈ post.data, isCloseBrace c = false) :
    extract_json (pre ++ ("\x7b" ++ mid ++ "\x7d") ++ post) = some ("\x7b" ++ mid ++ "\x7d") := by
  have hb1 : '\x7b' = braceOpen := by decide
  have hb2 : '\x7d' = braceClose := by decide
  have hdata : (pre ++ ("\x7b" ++ mid ++ "\x7d") ++ post).data
      = pre.data ++ (braceOpen :: (mid.data ++ (braceClose :: post.data))) := by
    simp [String.data_append]
    exact ⟨hb1, hb2⟩
  have hfi : firstIdx isOpenBrace (pre ++ ("\x7b" ++ mid ++ "\x7d") ++ post).data
      = some pre.data.length := by
    rw [hdata]
    exact firstIdx_append_head _ _ _ _ hpre (by decide)
  have hlast2 : lastIdx isCloseBrace (braceClose :: post.data) = some 0 := by
    simp [lastIdx, lastIdx_none isCloseBrace post.data hpost]
    decide
  have hdata2 : (pre ++ ("\x7b" ++ mid ++ "\x7d") ++ post).data
      = (pre.data ++ braceOpen :: mid.data) ++ (braceClose :: post.data) := by
    simp [String.data_append]
    exact ⟨hb1, hb2⟩
  have hla : lastIdx isCloseBrace (pre ++ ("\x7b" ++ mid ++ "\x7d") ++ post).data
      = some (pre.data.length + mid.data.length + 1) := by
    rw [hdata2, lastIdx_append_some _ _ _ _ hlast2]
    simp
    omega
  rw [extract_json_eq]
  unfold reSearchBraceGreedy
  simp only [hfi, hla]
  rw [if_pos (by omega)]
  have harith : pre.data.length + mid.data.length + 1 - pre.data.length + 1
      = mid.data.length + 2 := by omega
  rw [harith, hdata]
  rw [List.drop_left]
  have hsplit : braceOpen :: (mid.data ++ (braceClose :: post.data))
      = (braceOpen :: mid.data ++ [braceClose]) ++ post.data := by simp
  rw [hsplit]
  have hlen : mid.data.length + 2 = (braceOpen :: mid.data ++ [braceClose]).length := by simp
  rw [hlen, List.take_left]
  have hstr : ("\x7b" ++ mid ++ "\x7d").data = braceOpen :: mid.data ++ [braceClose] := by
    simp [String.data_append]
    exact ⟨hb1, hb2⟩
  rw [← hstr]

theorem skipWs_head_false (l : List Char) (c : Char) (r : List Char)
    (h : skipWs l = c :: r) : isJsonWs c = false := by
  induction l with
  | nil => cases h
  | cons a t ih =>
    rw [skipWs, List.dropWhile_cons] at h
    by_cases ha : isJsonWs a = true
    · rw [if_pos ha] at h
      exact ih h
    · rw [if_neg ha] at h
      cases h
      simpa using ha

theorem skipWs_cons_of_false (c : Char) (l : List Char) (h : isJsonWs c = false) :
    skipWs (c :: l) = c :: l := by
  rw [skipWs, List.dropWhile_cons, if_neg (by simp [h])]

theorem skipWs_append_cons (l1 l2 : List Char) (c : Char) (r : List Char)
    (h : skipWs l1 = c :: r) : skipWs (l1 ++ l2) = c :: (r ++ l2) := by
  induction l1 with
  | nil => cases h
  | cons a t ih =>
    rw [skipWs, List.dropWhile_cons] at h
    rw [List.cons_append, skipWs, List.dropWhile_cons]
    by_cases ha : isJsonWs a = true
    · rw [if_pos ha] at h
      rw [if_pos ha]
      exact ih h
    · rw [if_neg ha] at h
      rw [if_neg ha]
      cases h
      rfl

/-- A text whose first non-whitespace character cannot begin a JSON
value is rejected by `parseValue` at its first step. -/
theorem parseValue_notStart (f : Nat) (cs : List Char) (c : Char) (r : List Char)
    (hskip : skipWs cs = c :: r) (hc : notJsonStart c = true) :
    parseValue (Nat.succ f) cs = none := by
  simp only [notJsonStart, Bool.and_eq_true, Bool.not_eq_true', decide_eq_false_iff_not] at hc
  obtain ⟨⟨⟨⟨⟨⟨⟨⟨h1, h2⟩, h3⟩, h4⟩, h5⟩, h6⟩, h7⟩, h8⟩, h9⟩ := hc
  simp only [parseValue, hskip]
  rw [if_neg h1, if_neg h2, if_neg h4, if_neg h5, if_neg (by simp [h6])]
  split <;> simp_all

/-- A document whose first non-whitespace character cannot begin a
JSON value does not parse. -/
theorem jsonParse_notStart (s : String) (c : Char) (r : List Char)
    (hskip : skipWs s.data = c :: r) (hc : notJsonStart c = true) :
    jsonParse s = none := by
  unfold jsonParse
  have e : 2 * s.length + 2 = Nat.succ (2 * s.length + 1) := rfl
  rw [e, parseValue_notStart (2 * s.length + 1) s.data c r hskip hc]

/-- The text `generate_rebuttals` splices a response into —
`\x7b"rebuttals":[ … ]\x7d` — does not parse when the response's first
non-whitespace character cannot begin a JSON value: the parser reaches
the array element and fails on that character. -/
theorem spliced_jsonParse_none (raw : String) (c : Char) (r0 : List Char)
    (hskip : skipWs raw.data = c :: r0) (hc : notJsonStart c = true) :
    jsonParse ("\x7b\"rebuttals\":[" ++ raw ++ "]\x7d") = none := by
  have hws : isJsonWs c = false := skipWs_head_false _ _ _ hskip
  have hnrb : ¬(c = ']') := by
    simp only [notJsonStart, Bool.and_eq_true, Bool.not_eq_true',
      decide_eq_false_iff_not] at hc
    exact hc.1.1.1.1.1.1.2
  have h0 : ∀ f, parseValue f (c :: (r0 ++ (']' :: braceClose :: []))) = none := by
    intro f
    cases f with
    | zero => rfl
    | succ g => exact parseValue_notStart g _ c _ (skipWs_cons_of_false c _ hws) hc
  have h1 : ∀ f, parseElems (Nat.succ f) (c :: (r0 ++ (']' :: braceClose :: []))) [] = none := by
    intro f
    simp only [parseElems, h0 f]
  have hskraw : skipWs (raw.data ++ (']' :: braceClose :: []))
      = c :: (r0 ++ (']' :: braceClose :: [])) :=
    skipWs_append_cons _ _ _ _ hskip
  have h2 : ∀ f, parseValue (Nat.succ (Nat.succ f))
      ('[' :: (raw.data ++ (']' :: braceClose :: []))) = none := by
    intro f
    have hsk1 : skipWs ('[' :: (raw.data ++ (']' :: braceClose :: [])))
        = '[' :: (raw.data ++ (']' :: braceClose :: [])) :=
      skipWs_cons_of_false _ _ (by decide)
    simp only [parseValue, hsk1]
    rw [if_neg (by decide : ¬(('[' : Char) = braceOpen))]
    simp only [eq_self_iff_true, if_true, hskraw]
    rw [if_neg hnrb]
    exact h1 f
  have h3 : ∀ f, parseMembers (Nat.succ (Nat.succ (Nat.succ f)))
      ('\"' :: 'r' :: 'e' :: 'b' :: 'u' :: 't' :: 't' :: 'a' :: 'l' :: 's' :: '\"' :: ':'
        :: '[' :: (raw.data ++ (']' :: braceClose :: []))) [] = none := by
    intro f
    simp [parseMembers, parseStr, skipWs, List.dropWhile, isJsonWs, h2 f]
  have h4 : ∀ f, parseValue (Nat.succ (Nat.succ (Nat.succ (Nat.succ f))))
      (braceOpen :: '\"' :: 'r' :: 'e' :: 'b' :: 'u' :: 't' :: 't' :: 'a' :: 'l' :: 's'
        :: '\"' :: ':' :: '[' :: (raw.data ++ (']' :: braceClose :: []))) = none := by
    intro f
    have hsk1 : skipWs (braceOpen :: '\"' :: 'r' :: 'e' :: 'b' :: 'u' :: 't' :: 't' :: 'a'
          :: 'l' :: 's' :: '\"' :: ':' :: '[' :: (raw.data ++ (']' :: braceClose :: [])))
        = braceOpen :: '\"' :: 'r' :: 'e' :: 'b' :: 'u' :: 't' :: 't' :: 'a' :: 'l' :: 's'
          :: '\"' :: ':' :: '[' :: (raw.data ++ (']' :: braceClose :: [])) :=
      skipWs_cons_of_false _ _ (by decide)
    have hsk2 : skipWs ('\"' :: 'r' :: 'e' :: 'b' :: 'u' :: 't' :: 't' :: 'a' :: 'l' :: 's'
          :: '\"' :: ':' :: '[' :: (raw.data ++ (']' :: braceClose :: [])))
        = '\"' :: 'r' :: 'e' :: 'b' :: 'u' :: 't' :: 't' :: 'a' :: 'l' :: 's'
          :: '\"' :: ':' :: '[' :: (raw.data ++ (']' :: braceClose :: [])) :=
      skipWs_cons_of_false _ _ (by decide)
    simp only [parseValue, hsk1]
    simp only [eq_self_iff_true, if_true]
    simp only [hsk2]
    rw [if_neg (by decide : ¬(('\"' : Char) = braceClose))]
    exact h3 f
  have hfull : ("\x7b\"rebuttals\":[" ++ raw ++ "]\x7d").data
      = braceOpen :: '\"' :: 'r' :: 'e' :: 'b' :: 'u' :: 't' :: 't' :: 'a' :: 'l' :: 's'
        :: '\"' :: ':' :: '[' :: (raw.data ++ (']' :: braceClose :: [])) := by
    rw [String.data_append, String.data_append]
    have hA : ("\x7b\"rebuttals\":[" : String).data
        = [braceOpen, '\"', 'r', 'e', 'b', 'u', 't', 't', 'a', 'l', 's', '\"', ':', '['] := by
      decide
    have hB : ("]\x7d" : String).data = [']', braceClose] := by decide
    rw [hA, hB]
    simp
  have hlen : 2 * ("\x7b\"rebuttals\":[" ++ raw ++ "]\x7d").length + 2
      = Nat.succ (Nat.succ (Nat.succ (Nat.succ (2 * raw.length + 30)))) := by
    have hA : ("\x7b\"rebuttals\":[" : String).length = 14 := rfl
    have hB : ("]\x7d" : String).length = 2 := rfl
    simp [String.length_append, hA, hB]
    omega
  unfold jsonParse
  rw [hlen, hfull, h4 (2 * raw.length + 30)]

/-! ## Claim theorems -/

/-- C1 (counterexample): in the section-8 three-response scenario the
code makes exactly 1 upstream call, not 3, and returns a failure
carrying the first response instead of the value of the third — there
is no retry loop in `generate_arguments`. -/
theorem sectionEight_single_call_counterexample :
    (generate_arguments_run (oracleOf sectionEightResponses)).2 = 1
    ∧ (generate_arguments_run (oracleOf sectionEightResponses)).2 ≠ 3
    ∧ (generate_arguments_run (oracleOf sectionEightResponses)).1
        = GenResult.failMsg "not json" :=
  ⟨rfl, by decide, rfl⟩

/-- C1 (amended): each generation operation issues exactly one upstream
request per invocation — there is no retry on parse or validation
failure — and the outcome of `generate_arguments` depends only on the
first response. -/
theorem single_upstream_call :
    (∀ oracle : Nat → String, (generate_arguments_run oracle).2 = 1)
    ∧ (∀ oracle : Nat → String, (generate_opponents_run oracle).2 = 1)
    ∧ (∀ oracle : Nat → String, (score_rebuttal_run oracle).2 = 1)
    ∧ (∀ o q : Nat → String, o 0 = q 0 →
        generate_arguments_run o = generate_arguments_run q) := by
  refine ⟨fun _ => rfl, fun _ => rfl, fun _ => rfl, fun o q h => ?_⟩
  unfold generate_arguments_run
  rw [h]

/-- C1 (witness): two oracles agreeing on the first response give the
same run, later responses notwithstanding. -/
theorem single_upstream_call_witness :
    generate_arguments_run (oracleOf ["not json"])
      = generate_arguments_run (oracleOf ["not json", "ignored"]) :=
  single_upstream_call.2.2.2 (oracleOf ["not json"]) (oracleOf ["not json", "ignored"]) rfl

/-- C2 (counterexample): a response embedding a schema-valid object in
prose that itself holds a brace: the greedy extraction spans from the
prose's brace, the extracted text fails to parse, and the operation
raises instead of returning the embedded object's value. -/
theorem prose_with_braces_counterexample :
    DebateArguments.model_validate_json "\x7b\"arguments\": []\x7d" = some ⟨[]⟩
    ∧ processArgumentsResponse "Note \x7bx\x7d first. \x7b\"arguments\": []\x7d end"
        = GenResult.raised
    ∧ GenResult.raised ≠ GenResult.ok (⟨[]⟩ : DebateArguments) :=
  ⟨rfl, rfl, by decide⟩

/-- C2 (amended): for a schema-valid object wrapped in prose whose
prefix holds no opening brace and whose suffix no closing brace (and on
which direct validation fails), `generate_arguments` returns exactly
the value of parsing the embedded object directly — extraction is
lossless and, parsing being deterministic, order-preserving. -/
theorem generate_arguments_prose_lossless (pre mid post : String) (d : DebateArguments)
    (hpre : ∀ c ∈ pre.data, isOpenBrace c = false)
    (hpost : ∀ c ∈ post.data, isCloseBrace c = false)
    (hdirect : DebateArguments.model_validate_json (pre ++ ("\x7b" ++ mid ++ "\x7d") ++ post) = none)
    (hvalid : DebateArguments.model_validate_json ("\x7b" ++ mid ++ "\x7d") = some d) :
    processArgumentsResponse (pre ++ ("\x7b" ++ mid ++ "\x7d") ++ post) = GenResult.ok d := by
  have he := extract_json_wrap pre mid post hpre hpost
  simp [processArgumentsResponse, hdirect, he, hvalid]

/-- C2 (witness): the spec's own example — a valid object inside
explanatory prose — is extracted and validated. -/
theorem generate_arguments_prose_lossless_witness :
    processArgumentsResponse
        ("Sure! " ++ ("\x7b" ++ "\"arguments\": []" ++ "\x7d") ++ " Hope that helps.")
      = GenResult.ok ⟨[]⟩ :=
  generate_arguments_prose_lossless "Sure! " "\"arguments\": []" " Hope that helps." ⟨[]⟩
    (by decide) (by decide) rfl rfl

/-- C3 (counterexample): `score_rebuttal` does not tolerate prose: a
schema-conforming Score object surrounded by commentary fails to parse
(`json.loads` sees the whole text) and the operation fails. -/
theorem score_prose_intolerance_counterexample :
    jsonParse "\x7b\"Logic\":7,\"Evidence\":5,\"Relevance\":9,\"Style\":6,\"Suggestion\":\"s\"\x7d"
      = some (Json.jobj [("Logic", Json.jnum 7), ("Evidence", Json.jnum 5),
          ("Relevance", Json.jnum 9), ("Style", Json.jnum 6), ("Suggestion", Json.jstr "s")])
    ∧ specScoreWellFormed (Json.jobj [("Logic", Json.jnum 7), ("Evidence", Json.jnum 5),
          ("Relevance", Json.jnum 9), ("Style", Json.jnum 6), ("Suggestion", Json.jstr "s")]) = true
    ∧ processScoreResponse
        "Sure! \x7b\"Logic\":7,\"Evidence\":5,\"Relevance\":9,\"Style\":6,\"Suggestion\":\"s\"\x7d Hope that helps."
      = GenResult.failMsg
        "Sure! \x7b\"Logic\":7,\"Evidence\":5,\"Relevance\":9,\"Style\":6,\"Suggestion\":\"s\"\x7d Hope that helps." :=
  ⟨rfl, rfl, rfl⟩

/-- C3 (amended): only argument and opponent generation tolerate
surrounding prose (through `extract_json`, provided the prose holds no
brace extending the match): `generate_opponents` succeeds on any
schema-valid object wrapped in such prose.  Rebuttal generation and
scoring attempt no extraction: every response whose first
non-whitespace character cannot begin a JSON value — ordinary leading
commentary — fails scoring and makes the rebuttal's response
unparseable, so the argument is dropped. -/
theorem prose_handling_by_operation :
    (∀ (pre mid post : String) (v : SimpleArgList),
      (∀ c ∈ pre.data, isOpenBrace c = false) →
      (∀ c ∈ post.data, isCloseBrace c = false) →
      SimpleArgList.model_validate_json ("\x7b" ++ mid ++ "\x7d") = some v →
      processOpponentsResponse (pre ++ ("\x7b" ++ mid ++ "\x7d") ++ post) = GenResult.ok v)
    ∧ (∀ (raw : String) (c : Char), (skipWs (pyStrip raw).data).head? = some c →
      notJsonStart c = true → processScoreResponse raw = GenResult.failMsg raw)
    ∧ (∀ (raw : String) (c : Char), (skipWs raw.data).head? = some c →
      notJsonStart c = true → processRebuttalResponse raw = none) := by
  refine ⟨fun pre mid post v hpre hpost hvalid => ?_,
    fun raw c hhead hc => ?_, fun raw c hhead hc => ?_⟩
  · have he := extract_json_wrap pre mid post hpre hpost
    simp [processOpponentsResponse, he, hvalid]
  · cases hsk : skipWs (pyStrip raw).data with
    | nil => rw [hsk] at hhead; cases hhead
    | cons a t =>
      rw [hsk] at hhead
      have hac : a = c := by simpa using hhead
      subst hac
      have hj := jsonParse_notStart (pyStrip raw) a t hsk hc
      simp [processScoreResponse, hj]
  · cases hsk : skipWs raw.data with
    | nil => rw [hsk] at hhead; cases hhead
    | cons a t =>
      rw [hsk] at hhead
      have hac : a = c := by simpa using hhead
      subst hac
      have hj := spliced_jsonParse_none raw a t hsk hc
      simp [processRebuttalResponse, Rebuttals.model_validate_json, hj]

/-- C3 (witness): opponent generation succeeds on a prose-wrapped
response; the same kind of leading commentary makes scoring fail and a
rebuttal response unparseable. -/
theorem prose_handling_by_operation_witness :
    processOpponentsResponse
        ("Of course: " ++ ("\x7b" ++ "\"arguments\": []" ++ "\x7d") ++ " -- good luck!")
      = GenResult.ok ⟨[]⟩
    ∧ processScoreResponse
        "Sure! \x7b\"Logic\":7,\"Evidence\":5,\"Relevance\":9,\"Style\":6,\"Suggestion\":\"ok\"\x7d"
      = GenResult.failMsg
        "Sure! \x7b\"Logic\":7,\"Evidence\":5,\"Relevance\":9,\"Style\":6,\"Suggestion\":\"ok\"\x7d"
    ∧ processRebuttalResponse "Sure! \x7b\"original_argument_title\":\"t\"\x7d" = none :=
  ⟨prose_handling_by_operation.1 "Of course: " "\"arguments\": []" " -- good luck!" ⟨[]⟩
      (by decide) (by decide) rfl,
   prose_handling_by_operation.2.1 _ 'S' rfl (by decide),
   prose_handling_by_operation.2.2 _ 'S' rfl (by decide)⟩

/-- C4 (counterexample): `score_rebuttal` performs no validation after
`json.loads`: a response with a single category is returned as a
success although it is not a well-formed Score. -/
theorem score_missing_categories_counterexample :
    processScoreResponse "\x7b\"Logic\": 7\x7d" = GenResult.ok (Json.jobj [("Logic", Json.jnum 7)])
    ∧ specScoreWellFormed (Json.jobj [("Logic", Json.jnum 7)]) = false :=
  ⟨rfl, rfl⟩

/-- C4 (amended): `score_rebuttal` returns exactly the JSON value
parsed from the stripped response — with no check of the four
categories, their ranges, or the suggestion — and fails exactly when
parsing fails. -/
theorem score_returns_parsed_json :
    (∀ raw v, jsonParse (pyStrip raw) = some v → processScoreResponse raw = GenResult.ok v)
    ∧ (∀ raw, jsonParse (pyStrip raw) = none → processScoreResponse raw = GenResult.failMsg raw) := by
  refine ⟨fun raw v h => ?_, fun raw h => ?_⟩ <;> simp [processScoreResponse, h]

/-- C4 (witness): a bare number parses and is returned untouched. -/
theorem score_returns_parsed_json_witness :
    processScoreResponse "42" = GenResult.ok (Json.jnum 42) :=
  score_returns_parsed_json.1 "42" (Json.jnum 42) rfl

/-- C5: every JSON object lacking one of the five defaultless
`Optional` fields of `Argument` fails validation, while an object
carrying all five as `null` validates, `famous_quote` defaulting to
the empty string. -/
theorem argument_requires_all_defaultless_fields :
    (∀ fs : List (String × Json),
      (getField fs "argument_title" = none ∨ getField fs "argument" = none
        ∨ getField fs "argument_description" = none
        ∨ getField fs "supporting_evidence" = none
        ∨ getField fs "evidence_hint" = none) →
      validateArgument (Json.jobj fs) = none)
    ∧ validateArgument (Json.jobj [("argument_title", Json.null), ("argument", Json.null),
        ("argument_description", Json.null), ("supporting_evidence", Json.null),
        ("evidence_hint", Json.null)])
      = some ⟨none, none, none, none, none, some ""⟩ := by
  constructor
  · intro fs h
    rcases h with h | h | h | h | h
    · simp [validateArgument, h]
    · cases h1 : getField fs "argument_title" <;> simp [validateArgument, h1, h]
    · cases h1 : getField fs "argument_title" <;> cases h2 : getField fs "argument" <;>
        simp [validateArgument, h1, h2, h]
    · cases h1 : getField fs "argument_title" <;> cases h2 : getField fs "argument" <;>
        cases h3 : getField fs "argument_description" <;>
        simp [validateArgument, h1, h2, h3, h]
    · cases h1 : getField fs "argument_title" <;> cases h2 : getField fs "argument" <;>
        cases h3 : getField fs "argument_description" <;>
        cases h4 : getField fs "supporting_evidence" <;>
        simp [validateArgument, h1, h2, h3, h4, h]
  · rfl

/-- C5 (witness): the object shaped exactly like the opponents
prompt's example schema — keys `argument`, `evidence_hint`,
`famous_quote` only — is rejected by the `Argument` model. -/
theorem argument_requires_all_defaultless_fields_witness :
    validateArgument (Json.jobj [("argument", Json.jstr "x"), ("evidence_hint", Json.jstr "y"),
      ("famous_quote", Json.jstr "z")]) = none :=
  argument_requires_all_defaultless_fields.1 _ (Or.inl rfl)

/-- C6: `SimpleArgList` validation imposes no cardinality constraint
on the `arguments` array — any list whose elements validate is
accepted as-is, with its length unchanged — and `generate_opponents`
returns whatever validates, whatever the count. -/
theorem opponents_accept_any_cardinality :
    (∀ (js : List Json) (args : List Argument), validateArgs js = some args →
      validateSimpleArgList (Json.jobj [("arguments", Json.jarr js)])
        = some (SimpleArgList.mk args) ∧ args.length = js.length)
    ∧ (∀ raw s v, extract_json raw = some s → SimpleArgList.model_validate_json s = some v →
      processOpponentsResponse raw = GenResult.ok v) := by
  constructor
  · intro js args h
    refine ⟨?_, validateArgs_length js args h⟩
    have hg : getField [("arguments", Json.jarr js)] "arguments" = some (Json.jarr js) := rfl
    simp [validateSimpleArgList, hg, h]
  · intro raw s v h1 h2
    simp [processOpponentsResponse, h1, h2]

/-- C6 (witness): a 2-element arguments array — not the requested 3 —
validates and is returned as-is. -/
theorem opponents_accept_any_cardinality_witness :
    validateSimpleArgList (Json.jobj [("arguments", Json.jarr
        [Json.jobj [("argument_title", Json.null), ("argument", Json.null),
          ("argument_description", Json.null), ("supporting_evidence", Json.null),
          ("evidence_hint", Json.null)],
         Json.jobj [("argument_title", Json.null), ("argument", Json.null),
          ("argument_description", Json.null), ("supporting_evidence", Json.null),
          ("evidence_hint", Json.null)]])])
      = some (SimpleArgList.mk [⟨none, none, none, none, none, some ""⟩,
          ⟨none, none, none, none, none, some ""⟩])
    ∧ ([(⟨none, none, none, none, none, some ""⟩ : Argument),
        ⟨none, none, none, none, none, some ""⟩]).length
      = ([Json.jobj [("argument_title", Json.null), ("argument", Json.null),
          ("argument_description", Json.null), ("supporting_evidence", Json.null),
          ("evidence_hint", Json.null)],
         Json.jobj [("argument_title", Json.null), ("argument", Json.null),
          ("argument_description", Json.null), ("supporting_evidence", Json.null),
          ("evidence_hint", Json.null)]]).length :=
  opponents_accept_any_cardinality.1 _ _ rfl

/-- C7 (counterexample): when extraction yields a substring that then
fails validation, `generate_arguments` raises an uncaught exception
instead of returning a failure with a user-visible message. -/
theorem unhandled_validation_exception_counterexample :
    processArgumentsResponse "x \x7bbad\x7d y" = GenResult.raised := rfl

/-- C7 (amended): every failure path except one reports with the
offending text and returns a failure value: `generate_arguments` with
no extractable JSON reports the raw text; extraction followed by a
second validation failure raises (the uncovered path);
`generate_opponents` reports the raw text or the extracted text;
`score_rebuttal` reports the response text; `generate_rebuttals`
reports the invalid opponent JSON (returning `[]`, not raising) and
warns with the raw response for each argument whose rebuttal fails. -/
theorem failure_paths_report :
    (∀ raw, DebateArguments.model_validate_json raw = none → extract_json raw = none →
      processArgumentsResponse raw = GenResult.failMsg raw)
    ∧ (∀ raw s, DebateArguments.model_validate_json raw = none → extract_json raw = some s →
      DebateArguments.model_validate_json s = none →
      processArgumentsResponse raw = GenResult.raised)
    ∧ (∀ raw, extract_json raw = none → processOpponentsResponse raw = GenResult.failMsg raw)
    ∧ (∀ raw s, extract_json raw = some s → SimpleArgList.model_validate_json s = none →
      processOpponentsResponse raw = GenResult.failMsg s)
    ∧ (∀ raw, jsonParse (pyStrip raw) = none → processScoreResponse raw = GenResult.failMsg raw)
    ∧ (∀ oj oracle, SimpleArgList.model_validate_json oj = none →
      generate_rebuttals_run oj oracle = [] ∧ generate_rebuttals_messages oj oracle = [oj])
    ∧ (∀ oj oracle p, SimpleArgList.model_validate_json oj = some p →
      ∀ i, i < p.arguments.length → processRebuttalResponse (pyStrip (oracle i)) = none →
      pyStrip (oracle i) ∈ generate_rebuttals_messages oj oracle) := by
  refine ⟨fun raw h1 h2 => ?_, fun raw s h1 h2 h3 => ?_, fun raw h => ?_,
    fun raw s h1 h2 => ?_, fun raw h => ?_, fun oj oracle h => ?_,
    fun oj oracle p h i hi hfail => ?_⟩
  · simp [processArgumentsResponse, h1, h2]
  · simp [processArgumentsResponse, h1, h2, h3]
  · simp [processOpponentsResponse, h]
  · simp [processOpponentsResponse, h1, h2]
  · simp [processScoreResponse, h]
  · exact ⟨by simp [generate_rebuttals_run, h], by simp [generate_rebuttals_messages, h]⟩
  · unfold generate_rebuttals_messages
    simp only [h]
    refine List.mem_filterMap.mpr ⟨i, ?_, ?_⟩
    · simpa using hi
    · simp [hfail]

/-- C7 (witness): a response with no JSON at all is reported with the
raw text. -/
theorem failure_paths_report_witness :
    processArgumentsResponse "not json" = GenResult.failMsg "not json" :=
  failure_paths_report.1 "not json" rfl rfl

/-- C8: `extract_json` is total (the recursive-pattern branch always
raises and is caught) and is decided by the greedy fallback: when an
opening brace precedes the last closing brace it returns the substring
between the first opening brace and the last closing brace — not the
first balanced object — otherwise `None`; any returned text is a
substring of the input. -/
theorem extract_json_greedy_spec (s : String) :
    (∀ i j, firstIdx isOpenBrace s.data = some i → lastIdx isCloseBrace s.data = some j →
      (i < j → extract_json s = some (String.mk ((s.data.drop i).take (j - i + 1))))
      ∧ (¬ i < j → extract_json s = none))
    ∧ (firstIdx isOpenBrace s.data = none → extract_json s = none)
    ∧ (lastIdx isCloseBrace s.data = none → extract_json s = none)
    ∧ (∀ t, extract_json s = some t → ∃ l r, s.data = l ++ t.data ++ r) := by
  refine ⟨fun i j hi hj => ⟨fun hij => ?_, fun hij => ?_⟩, fun h => ?_, fun h => ?_,
    fun t h => ?_⟩
  · rw [extract_json_eq]; unfold reSearchBraceGreedy; simp only [hi, hj]; rw [if_pos hij]
  · rw [extract_json_eq]; unfold reSearchBraceGreedy; simp only [hi, hj]; rw [if_neg hij]
  · rw [extract_json_eq]; unfold reSearchBraceGreedy; simp [h]
  · rw [extract_json_eq]; unfold reSearchBraceGreedy
    cases hx : firstIdx isOpenBrace s.data <;> simp [hx, h]
  · rw [extract_json_eq] at h; unfold reSearchBraceGreedy at h
    cases hx : firstIdx isOpenBrace s.data with
    | none => simp [hx] at h
    | some i =>
      cases hy : lastIdx isCloseBrace s.data with
      | none => simp [hx, hy] at h
      | some j =>
        simp only [hx, hy] at h
        by_cases hij : i < j
        · rw [if_pos hij] at h
          have ht : t = String.mk ((s.data.drop i).take (j - i + 1)) := by
            injection h with h2
            exact h2.symm
          rw [ht]
          refine ⟨s.data.take i, (s.data.drop i).drop (j - i + 1), ?_⟩
          show s.data
              = s.data.take i ++ (s.data.drop i).take (j - i + 1)
                ++ (s.data.drop i).drop (j - i + 1)
          rw [List.append_assoc, List.take_append_drop, List.take_append_drop]
        · rw [if_neg hij] at h
          cases h

/-- C8 (witness): on `a\x7bb\x7dc d\x7d` the result spans from index 1 (the
first opening brace) to index 7 (the last closing brace), overshooting
the balanced object `\x7bb\x7d`. -/
theorem extract_json_greedy_spec_witness :
    extract_json "a\x7bb\x7dc d\x7d"
      = some (String.mk ((("a\x7bb\x7dc d\x7d" : String).data.drop 1).take (7 - 1 + 1))) :=
  ((extract_json_greedy_spec "a\x7bb\x7dc d\x7d").1 1 7 rfl rfl).1 (by decide)

/-- C9: `generate_rebuttals` returns at most one rebuttal per opponent
argument — failures are dropped, the call still succeeds — and an
invalid opponent JSON yields the empty list. -/
theorem generate_rebuttals_bounded :
    (∀ oj oracle, SimpleArgList.model_validate_json oj = none →
      generate_rebuttals_run oj oracle = [])
    ∧ (∀ oj oracle p, SimpleArgList.model_validate_json oj = some p →
      (generate_rebuttals_run oj oracle).length ≤ p.arguments.length) := by
  constructor
  · intro oj oracle h
    simp [generate_rebuttals_run, h]
  · intro oj oracle p h
    unfold generate_rebuttals_run
    simp only [h]
    exact le_trans (List.length_filterMap_le _ _) (le_of_eq (List.length_range _))

/-- C9 (witness): an unparseable opponent JSON yields `[]`. -/
theorem generate_rebuttals_bounded_witness :
    generate_rebuttals_run "bad" (oracleOf []) = [] :=
  generate_rebuttals_bounded.1 "bad" (oracleOf []) rfl

/-- C10: when the secret store lacks `openai_api_key`, startup reports
the fatal configuration error and halts: the continuation holding the
rest of the app — every generation operation included — never runs. -/
theorem missing_api_key_halts :
    ∀ (α : Type) (secrets : List String) (rest : Unit → α),
      "openai_api_key" ∉ secrets →
      app_main secrets rest = Except.error
        "OpenAI API key not found in Streamlit secrets. Please add it as openai_api_key." := by
  intro α secrets rest h
  simp [app_main, h]

/-- C10 (witness): with an empty secret store the app halts with the
configuration error. -/
theorem missing_api_key_halts_witness :
    app_main ([] : List String) (fun _ => (0 : Nat)) = Except.error
      "OpenAI API key not found in Streamlit secrets. Please add it as openai_api_key." :=
  missing_api_key_halts Nat [] (fun _ => 0) (by decide)

end DebateCoach
